import Mathlib

/-!
Shallow embedding of `apps/web/modules/ee/license-check/lib/license.ts`
(license resolution engine of the formbricks fork).

Conventions of the embedding:
* JS timestamps (`Date`) are `Nat` milliseconds.
* JS numbers appearing in license data are `ENum` (an integer or the
  distinguished `Infinity` value used for unbounded project quotas).
* Ambient state the source reads (environment variables, the in-memory
  cache, the module-level single-flight slot) is passed explicitly.
* Effectful functions additionally return the effects they perform
  (network calls, etc.), so that "performs no network call" is a statement
  about the returned effect list.
-/

/-- A JS number as it occurs in license payloads: an integer or `Infinity`. -/
inductive ENum
  | int (n : Int)
  | inf
deriving DecidableEq, Repr

/-- `TEnterpriseLicenseFeatures`: the feature-flag record of the license
(14 fields; `projects` is `number | null`). -/
structure LicenseFeatures where
  isMultiOrgEnabled : Bool
  projects : Option ENum
  twoFactorAuth : Bool
  sso : Bool
  whitelabel : Bool
  removeBranding : Bool
  contacts : Bool
  ai : Bool
  saml : Bool
  spamProtection : Bool
  auditLogs : Bool
  multiLanguageSurveys : Bool
  accessControl : Bool
  quotas : Bool
deriving DecidableEq, Repr

/-- The `status` enum of `LicenseDetailsSchema`: `z.enum(["active", "expired"])`. -/
inductive LicenseStatus
  | active
  | expired
deriving DecidableEq, Repr

/-- `TEnterpriseLicenseDetails`: the validated payload of a successful
remote check (`{status, features}`). -/
structure LicenseDetails where
  status : LicenseStatus
  features : LicenseFeatures
deriving DecidableEq, Repr

/-- Untyped JSON-like values, the input of the Zod validator. Objects are
association lists of string keys. -/
inductive JValue
  | jnull
  | jbool (b : Bool)
  | jnum (n : ENum)
  | jstr (s : String)
  | jobj (fields : List (String × JValue))

/-- Property lookup on a JS object (association list). -/
def lookupField (fields : List (String × JValue)) (k : String) : Option JValue :=
  (fields.find? (fun p => p.1 = k)).map (fun p => p.2)

/-- `z.boolean()` on one object property. -/
def getBoolField (fields : List (String × JValue)) (k : String) : Except String Bool :=
  match lookupField fields k with
  | some (.jbool b) => .ok b
  | _ => .error k

/-- `z.number().nullable()` on one object property. -/
def getNumNullableField (fields : List (String × JValue)) (k : String) :
    Except String (Option ENum) :=
  match lookupField fields k with
  | some (.jnum n) => .ok (some n)
  | some .jnull => .ok none
  | _ => .error k

/-- `LicenseFeaturesSchema.parse`: all 14 fields must be present and
well-typed; unknown keys are ignored (Zod default strip mode). -/
def parseLicenseFeatures (j : JValue) : Except String LicenseFeatures :=
  match j with
  | .jobj f => do
    let isMultiOrgEnabled ← getBoolField f "isMultiOrgEnabled"
    let projects ← getNumNullableField f "projects"
    let twoFactorAuth ← getBoolField f "twoFactorAuth"
    let sso ← getBoolField f "sso"
    let whitelabel ← getBoolField f "whitelabel"
    let removeBranding ← getBoolField f "removeBranding"
    let contacts ← getBoolField f "contacts"
    let ai ← getBoolField f "ai"
    let saml ← getBoolField f "saml"
    let spamProtection ← getBoolField f "spamProtection"
    let auditLogs ← getBoolField f "auditLogs"
    let multiLanguageSurveys ← getBoolField f "multiLanguageSurveys"
    let accessControl ← getBoolField f "accessControl"
    let quotas ← getBoolField f "quotas"
    return { isMultiOrgEnabled, projects, twoFactorAuth, sso, whitelabel,
             removeBranding, contacts, ai, saml, spamProtection, auditLogs,
             multiLanguageSurveys, accessControl, quotas }
  | _ => .error "features"

/-- `validateLicenseDetails` = `LicenseDetailsSchema.parse`: requires
`status ∈ {active, expired}` and a valid `features` object. -/
def validateLicenseDetails (j : JValue) : Except String LicenseDetails :=
  match j with
  | .jobj f =>
    match lookupField f "status" with
    | some (.jstr "active") =>
      (parseLicenseFeatures ((lookupField f "features").getD .jnull)).map
        (fun feats => { status := .active, features := feats })
    | some (.jstr "expired") =>
      (parseLicenseFeatures ((lookupField f "features").getD .jnull)).map
        (fun feats => { status := .expired, features := feats })
    | _ => .error "status"
  | _ => .error "licenseDetails"

/-- Serialize `projects` back to JSON (`null` or a number). -/
def encodeProjects : Option ENum → JValue
  | none => .jnull
  | some n => .jnum n

/-- Serialize a feature record to the JSON shape the schema accepts. -/
def encodeLicenseFeatures (f : LicenseFeatures) : JValue :=
  .jobj [("isMultiOrgEnabled", .jbool f.isMultiOrgEnabled),
         ("projects", encodeProjects f.projects),
         ("twoFactorAuth", .jbool f.twoFactorAuth),
         ("sso", .jbool f.sso),
         ("whitelabel", .jbool f.whitelabel),
         ("removeBranding", .jbool f.removeBranding),
         ("contacts", .jbool f.contacts),
         ("ai", .jbool f.ai),
         ("saml", .jbool f.saml),
         ("spamProtection", .jbool f.spamProtection),
         ("auditLogs", .jbool f.auditLogs),
         ("multiLanguageSurveys", .jbool f.multiLanguageSurveys),
         ("accessControl", .jbool f.accessControl),
         ("quotas", .jbool f.quotas)]

/-- Serialize the status enum. -/
def encodeStatus : LicenseStatus → JValue
  | .active => .jstr "active"
  | .expired => .jstr "expired"

/-- Serialize a validated outcome back to JSON. -/
def encodeLicenseDetails (d : LicenseDetails) : JValue :=
  .jobj [("status", encodeStatus d.status),
         ("features", encodeLicenseFeatures d.features)]

/-! ## Configuration constants (`CONFIG`) -/

/-- `CONFIG.CACHE.FETCH_LICENSE_TTL_MS` = 24 hours. -/
def FETCH_LICENSE_TTL_MS : Nat := 24 * 60 * 60 * 1000

/-- `CONFIG.CACHE.PREVIOUS_RESULT_TTL_MS` = 4 days. -/
def PREVIOUS_RESULT_TTL_MS : Nat := 4 * 24 * 60 * 60 * 1000

/-- `CONFIG.CACHE.GRACE_PERIOD_MS` = 3 days. -/
def GRACE_PERIOD_MS : Nat := 3 * 24 * 60 * 60 * 1000

/-- `CONFIG.CACHE.MAX_RETRIES` = 3. -/
def MAX_RETRIES : Nat := 3

/-- `CONFIG.CACHE.RETRY_DELAY_MS` = 1000. -/
def RETRY_DELAY_MS : Nat := 1000

/-! ## Ambient state of the module, passed explicitly -/

/-- The environment/configuration the source reads (`env`, `process.env`,
`E2E_TESTING`, and the instance-identity collaborator). -/
structure Env where
  enterpriseLicenseKey : Option String
  nextPhaseProductionBuild : Bool
  e2eTesting : Bool
  instanceId : Option String
deriving DecidableEq, Repr

/-- The two-tier result cache (fresh slot and previous-result slot), each a
value with its `storedAt` timestamp. -/
structure CacheState where
  fresh : Option (LicenseDetails × Nat)
  previous : Option (LicenseDetails × Nat)
deriving DecidableEq, Repr

/-- Externally observable effects of a license operation. -/
inductive Effect
  | netCall
  | cacheAccess
deriving DecidableEq, Repr

/-! ## The public result type and the exported accessors -/

/-- `FallbackLevel`. -/
inductive FallbackLevel
  | live
  | cached
  | grace
  | deflt
deriving DecidableEq, Repr

/-- `TEnterpriseLicenseStatusReturn`. -/
inductive LicenseStatusReturn
  | active
  | expired
  | unreachable
  | noLicense
deriving DecidableEq, Repr

/-- `TEnterpriseLicenseResult`. -/
structure LicenseResult where
  active : Bool
  features : Option LicenseFeatures
  lastChecked : Nat
  isPendingDowngrade : Bool
  fallbackLevel : FallbackLevel
  status : LicenseStatusReturn
deriving DecidableEq, Repr

/-- The all-enabled feature record hardcoded by the source
(`projects: Infinity`, every flag `true`). -/
def allEnabledFeatures : LicenseFeatures :=
  { isMultiOrgEnabled := true
    projects := some .inf
    twoFactorAuth := true
    sso := true
    whitelabel := true
    removeBranding := true
    contacts := true
    ai := true
    saml := true
    spamProtection := true
    auditLogs := true
    multiLanguageSurveys := true
    accessControl := true
    quotas := true }

/-- `getEnterpriseLicense`: the exported resolver. The source body is a
single object literal: it ignores the environment and the cache state,
reads only the clock for `lastChecked`, and performs no effects (the empty
effect list). The `env`/`st` parameters stand for the ambient state the
function could read but does not. -/
def getEnterpriseLicense (_env : Env) (_st : CacheState) (now : Nat) :
    LicenseResult × List Effect :=
  ({ active := true
     features := some allEnabledFeatures
     lastChecked := now
     isPendingDowngrade := false
     fallbackLevel := .live
     status := .active }, [])

/-- `getLicenseFeatures`: the exported feature accessor; also a hardcoded
object literal, with no effects. -/
def getLicenseFeatures (_env : Env) : Option LicenseFeatures × List Effect :=
  (some allEnabledFeatures, [])

/-- Number of network calls in an effect list. -/
def countNetCalls (effs : List Effect) : Nat :=
  effs.count .netCall

/-! ## `fetchLicenseFromServerInternal` -/

/-- What one network attempt observes: the authority answered 2xx with a
parsed body (`res.ok`), answered non-2xx with a status code, or the attempt
threw a non-API exception (timeout abort, DNS/connection failure,
`res.json()` parse failure). The oracle is indexed by the `retryCount` of
the attempt. -/
inductive AttemptOutcome
  | httpOk (data : JValue)
  | httpErr (status : Nat)
  | netExn

/-- Errors that can travel through the try/catch of the source:
`LicenseApiError` (constructed for non-2xx responses), a Zod schema error,
or any other runtime exception. -/
inductive LicErr
  | apiError (status : Nat)
  | zodError (msg : String)
  | otherError
deriving DecidableEq, Repr

/-- Observable run of one `fetchLicenseFromServerInternal` call:
the value delivered to the caller (an exception, or `null`/details),
how many times the usage context was gathered, how many network requests
were made, and the backoff sleeps performed. -/
structure FetchTrace where
  result : Except LicErr (Option LicenseDetails)
  gathers : Nat
  attempts : Nat
  delays : List Nat
deriving Repr

/-- The `catch` block of `fetchLicenseFromServerInternal`: a
`LicenseApiError` is rethrown; any other exception is logged and converted
to `null`. -/
def catchLicense (r : Except LicErr (Option LicenseDetails)) :
    Except LicErr (Option LicenseDetails) :=
  match r with
  | .error (.apiError s) => .error (.apiError s)
  | .error _ => .ok none
  | .ok o => .ok o

/-- `fetchLicenseFromServerInternal(retryCount)`. Guards: no license key or
build phase return `null` before the try block. Inside the try: gather the
usage context (one gather effect); without an instance id (outside E2E)
return `null`; otherwise issue the request. On 2xx, `validateLicenseDetails`
either succeeds or throws a Zod error; a non-API exception is thrown for
network-level failures; on non-2xx a `LicenseApiError` is constructed and
logged (never thrown), and the call retries after
`RETRY_DELAY_MS * 2 ^ retryCount` when `retryCount < MAX_RETRIES` and the
status is in `[429, 502, 503, 504]`, else returns `null`. The recursive
call sits inside the try, so its escaped exceptions reach this level's
catch too. -/
def fetchLicenseFromServerInternal (env : Env) (oracle : Nat → AttemptOutcome)
    (retryCount : Nat) : FetchTrace :=
  if env.enterpriseLicenseKey.isNone then ⟨.ok none, 0, 0, []⟩
  else if env.nextPhaseProductionBuild then ⟨.ok none, 0, 0, []⟩
  else
    let body : FetchTrace :=
      if !env.e2eTesting && env.instanceId.isNone then ⟨.ok none, 1, 0, []⟩
      else
        match oracle retryCount with
        | .httpOk data =>
          match validateLicenseDetails data with
          | .ok d => ⟨.ok (some d), 1, 1, []⟩
          | .error e => ⟨.error (.zodError e), 1, 1, []⟩
        | .netExn => ⟨.error .otherError, 1, 1, []⟩
        | .httpErr s =>
          if h : retryCount < MAX_RETRIES ∧ s ∈ [429, 502, 503, 504] then
            let r := fetchLicenseFromServerInternal env oracle (retryCount + 1)
            ⟨r.result, 1 + r.gathers, 1 + r.attempts,
             RETRY_DELAY_MS * 2 ^ retryCount :: r.delays⟩
          else ⟨.ok none, 1, 1, []⟩
    ⟨catchLicense body.result, body.gathers, body.attempts, body.delays⟩
termination_by MAX_RETRIES - retryCount
decreasing_by
  have := h.1
  omega

/-! ## `fetchLicense` single-flight -/

/-- The module-level single-flight state: the in-flight promise slot
(`fetchLicensePromise`), plus instrumentation of the run — how many times
the producer (the cached server fetch) was invoked and a counter supplying
fresh promise identities. -/
structure SFState where
  slot : Option Nat
  producerCalls : Nat
  nextId : Nat
deriving DecidableEq, Repr

/-- The synchronous prefix of one `fetchLicense()` call (atomic on the JS
event loop): return `null` without touching the slot when no key is
configured or during the build phase; join the existing in-flight promise
when one is present; otherwise start the producer, store its promise in the
slot and return it. The first component is the promise the caller awaits
(`none` = resolved immediately with `null`). -/
def fetchLicenseStep (env : Env) (s : SFState) : Option Nat × SFState :=
  if env.enterpriseLicenseKey.isNone then (none, s)
  else if env.nextPhaseProductionBuild then (none, s)
  else
    match s.slot with
    | some p => (some p, s)
    | none =>
      (some s.nextId,
       { slot := some s.nextId, producerCalls := s.producerCalls + 1,
         nextId := s.nextId + 1 })

/-- The `.finally` handler of the in-flight promise: on completion (success
or failure) the slot is cleared. -/
def settleFetchLicense (s : SFState) : SFState :=
  { s with slot := none }

/-- `n` consecutive `fetchLicense()` calls with no promise completion in
between (concurrent callers interleaved on the event loop); returns the
final state and each caller's awaited promise. -/
def iterateCalls (env : Env) : Nat → SFState → SFState × List (Option Nat)
  | 0, s => (s, [])
  | n + 1, s =>
    let (r, s') := fetchLicenseStep env s
    let (s'', rs) := iterateCalls env n s'
    (s'', r :: rs)

/-- Classifies an attempt outcome as an operational failure (anything but a
2xx response). -/
def isFailureOutcome : AttemptOutcome → Bool
  | .httpOk _ => false
  | .httpErr _ => true
  | .netExn => true

/-! ## Helper lemmas -/

/-- Re-validating the serialization of a validated outcome succeeds and
returns the same outcome. -/
theorem licenseDetails_roundtrip (d : LicenseDetails) :
    validateLicenseDetails (encodeLicenseDetails d) = .ok d := by
  obtain ⟨s, ⟨b1, proj, b2, b3, b4, b5, b6, b7, b8, b9, b10, b11, b12, b13⟩⟩ := d
  cases s <;> cases proj <;> rfl

/-- Fuel-indexed form: the fetcher's delivered value is always `.ok`
(the rethrow branch of the catch never fires). -/
theorem fetch_result_ok_aux (env : Env) (oracle : Nat → AttemptOutcome) :
    ∀ fuel rc, MAX_RETRIES - rc ≤ fuel →
      ∃ o, (fetchLicenseFromServerInternal env oracle rc).result = .ok o := by
  intro fuel
  induction fuel with
  | zero =>
    intro rc h
    rw [fetchLicenseFromServerInternal]
    split
    · exact ⟨none, rfl⟩
    · split
      · exact ⟨none, rfl⟩
      · split
        · exact ⟨none, rfl⟩
        · split
          · split
            · exact ⟨_, rfl⟩
            · exact ⟨none, rfl⟩
          · exact ⟨none, rfl⟩
          · split
            · omega
            · exact ⟨none, rfl⟩
  | succ n ih =>
    intro rc h
    rw [fetchLicenseFromServerInternal]
    split
    · exact ⟨none, rfl⟩
    · split
      · exact ⟨none, rfl⟩
      · split
        · exact ⟨none, rfl⟩
        · split
          · split
            · exact ⟨_, rfl⟩
            · exact ⟨none, rfl⟩
          · exact ⟨none, rfl⟩
          · split
            · obtain ⟨o, ho⟩ := ih (rc + 1) (by omega)
              exact ⟨o, by simp [catchLicense, ho]⟩
            · exact ⟨none, rfl⟩

/-- Fuel-indexed form: when every attempt fails operationally, the fetcher
delivers `null`. -/
theorem fetch_failure_null_aux (env : Env) (oracle : Nat → AttemptOutcome)
    (hfail : ∀ i, isFailureOutcome (oracle i) = true) :
    ∀ fuel rc, MAX_RETRIES - rc ≤ fuel →
      (fetchLicenseFromServerInternal env oracle rc).result = .ok none := by
  intro fuel
  induction fuel with
  | zero =>
    intro rc h
    rw [fetchLicenseFromServerInternal]
    split
    · rfl
    · split
      · rfl
      · split
        · rfl
        · split
          · rename_i data heq
            have hd := hfail rc
            rw [heq] at hd
            simp [isFailureOutcome] at hd
          · rfl
          · split
            · omega
            · rfl
  | succ n ih =>
    intro rc h
    rw [fetchLicenseFromServerInternal]
    split
    · rfl
    · split
      · rfl
      · split
        · rfl
        · split
          · rename_i data heq
            have hd := hfail rc
            rw [heq] at hd
            simp [isFailureOutcome] at hd
          · rfl
          · split
            · have hrec := ih (rc + 1) (by omega)
              simp [catchLicense, hrec]
            · rfl

/-- Once the in-flight slot is occupied, any number of further calls join
it: the state is unchanged and everyone receives the stored promise. -/
theorem iterateCalls_joined (env : Env) (p : Nat)
    (hk : env.enterpriseLicenseKey.isSome = true)
    (hb : env.nextPhaseProductionBuild = false) :
    ∀ n (s : SFState), s.slot = some p →
      iterateCalls env n s = (s, List.replicate n (some p)) := by
  intro n
  induction n with
  | zero => intro s _; rfl
  | succ m ih =>
    intro s hs
    have hstep : fetchLicenseStep env s = (some p, s) := by
      simp [fetchLicenseStep, Option.isNone_iff_eq_none, hb, hs]
      intro hnone
      rw [hnone] at hk
      simp at hk
    simp [iterateCalls, hstep, ih s hs, List.replicate]

/-! ## Claim theorems -/

/-- Claim C1, counterexample: with no license key configured, the call at
time 0 (empty cache) returns `status = active` and `active = true`, not
`status = no-license` with `active = false` as the claim states. -/
theorem getEnterpriseLicense_noKey_cex :
    ((getEnterpriseLicense ⟨none, false, false, none⟩ ⟨none, none⟩ 0).1.status
        = .active) ∧
    ((getEnterpriseLicense ⟨none, false, false, none⟩ ⟨none, none⟩ 0).1.active
        = true) ∧
    LicenseStatusReturn.active ≠ .noLicense := by
  exact ⟨rfl, rfl, by decide⟩

/-- Claim C1, amended: for every call to `getEnterpriseLicense` made when
no license key is configured, the returned result has `status = active` and
`active = true` (the hardcoded body ignores the key), and no network call
is performed. -/
theorem getEnterpriseLicense_noKey_active (env : Env) (st : CacheState) (now : Nat)
    (_h : env.enterpriseLicenseKey = none) :
    ((getEnterpriseLicense env st now).1.status = .active) ∧
    ((getEnterpriseLicense env st now).1.active = true) ∧
    countNetCalls (getEnterpriseLicense env st now).2 = 0 := by
  exact ⟨rfl, rfl, rfl⟩

/-- Witness for C1's amended theorem at a concrete keyless environment. -/
theorem getEnterpriseLicense_noKey_active_witness :
    ((getEnterpriseLicense ⟨none, false, false, none⟩ ⟨none, none⟩ 5).1.status
        = .active) ∧
    ((getEnterpriseLicense ⟨none, false, false, none⟩ ⟨none, none⟩ 5).1.active
        = true) ∧
    countNetCalls (getEnterpriseLicense ⟨none, false, false, none⟩ ⟨none, none⟩ 5).2 = 0 :=
  getEnterpriseLicense_noKey_active ⟨none, false, false, none⟩ ⟨none, none⟩ 5 rfl

/-- Claim C2, counterexample: with a previous `active` outcome stored at
`T0 = 0` and the call made at `t = T0 + FETCH_LICENSE_TTL_MS` (inside the
window `[T0+FETCH_TTL, T0+PREVIOUS_TTL)` where the claim requires
`fallbackLevel = cached`), the code returns `fallbackLevel = live`. -/
theorem fallback_window_cex :
    FETCH_LICENSE_TTL_MS < PREVIOUS_RESULT_TTL_MS ∧
    ((getEnterpriseLicense ⟨some "license-key", false, false, some "instance-id"⟩
        ⟨none, some (⟨.active, allEnabledFeatures⟩, 0)⟩
        FETCH_LICENSE_TTL_MS).1.fallbackLevel = .live) ∧
    FallbackLevel.live ≠ .cached := by
  refine ⟨by norm_num [FETCH_LICENSE_TTL_MS, PREVIOUS_RESULT_TTL_MS], rfl, by decide⟩

/-- Claim C2, amended: regardless of the cache state and the current time
(in particular at every instant of the cached, grace and post-grace windows
of the claim), `getEnterpriseLicense` returns `fallbackLevel = live`,
`active = true`, `status = active` and `isPendingDowngrade = false`: the
multi-tier fallback described by the claim is never exercised. -/
theorem getEnterpriseLicense_always_live (env : Env) (st : CacheState) (now : Nat) :
    ((getEnterpriseLicense env st now).1.fallbackLevel = .live) ∧
    ((getEnterpriseLicense env st now).1.active = true) ∧
    ((getEnterpriseLicense env st now).1.status = .active) ∧
    ((getEnterpriseLicense env st now).1.isPendingDowngrade = false) := by
  exact ⟨rfl, rfl, rfl, rfl⟩

/-- Claim C3: for every input state (key or not, cache in any state),
`getEnterpriseLicense` returns the all-enabled result with
`fallbackLevel = live`, `status = active`, `lastChecked = now`, performing
no effects, and `getLicenseFeatures` returns the same all-enabled feature
set (never `null`); every boolean flag of that feature set is `true` and
`projects` is the unbounded sentinel. -/
theorem getEnterpriseLicense_hardcoded (env : Env) (st : CacheState) (now : Nat) :
    (getEnterpriseLicense env st now =
      ({ active := true, features := some allEnabledFeatures, lastChecked := now,
         isPendingDowngrade := false, fallbackLevel := .live, status := .active }, [])) ∧
    (getLicenseFeatures env = (some allEnabledFeatures, [])) ∧
    allEnabledFeatures.isMultiOrgEnabled = true ∧
    allEnabledFeatures.projects = some .inf ∧
    allEnabledFeatures.twoFactorAuth = true ∧
    allEnabledFeatures.sso = true ∧
    allEnabledFeatures.whitelabel = true ∧
    allEnabledFeatures.removeBranding = true ∧
    allEnabledFeatures.contacts = true ∧
    allEnabledFeatures.ai = true ∧
    allEnabledFeatures.saml = true ∧
    allEnabledFeatures.spamProtection = true ∧
    allEnabledFeatures.auditLogs = true ∧
    allEnabledFeatures.multiLanguageSurveys = true ∧
    allEnabledFeatures.accessControl = true ∧
    allEnabledFeatures.quotas = true := by
  refine ⟨rfl, rfl, ?_⟩
  repeat (first | exact ⟨rfl, by decide⟩ | refine ⟨rfl, ?_⟩ | exact rfl)

/-- Claim C4, counterexample: the authority answers 2xx with a body that
fails schema validation (`null`), yet the fetch operation delivers
`.ok none` (i.e. `null`) to its caller instead of propagating the schema
error. -/
theorem fetch_schema_error_cex :
    (validateLicenseDetails .jnull = .error "licenseDetails") ∧
    fetchLicenseFromServerInternal ⟨some "license-key", false, false, some "instance-id"⟩
        (fun _ => .httpOk .jnull) 0 = ⟨.ok none, 1, 1, []⟩ := by
  constructor
  · rfl
  · rw [fetchLicenseFromServerInternal]
    rfl

/-- Claim C4, amended: when the authority responds with HTTP 2xx but the
parsed body fails schema validation, the thrown schema error is caught by
the generic catch branch (it is not a `LicenseApiError`), logged, and the
fetch operation returns `null` to its caller after that single attempt. -/
theorem fetch_schema_error_null (env : Env) (data : JValue)
    (oracle : Nat → AttemptOutcome) (rc : Nat) (e : String)
    (hk : env.enterpriseLicenseKey.isSome = true)
    (hb : env.nextPhaseProductionBuild = false)
    (hi : env.e2eTesting = true ∨ env.instanceId.isSome = true)
    (ho : oracle rc = .httpOk data)
    (hv : validateLicenseDetails data = .error e) :
    fetchLicenseFromServerInternal env oracle rc = ⟨.ok none, 1, 1, []⟩ := by
  obtain ⟨k, b, e2e, inst⟩ := env
  obtain ⟨k', rfl⟩ := Option.isSome_iff_exists.mp hk
  simp at hb
  subst hb
  rcases hi with he | hi
  · simp at he
    subst he
    rw [fetchLicenseFromServerInternal]
    simp [ho, hv, catchLicense]
  · obtain ⟨i, rfl⟩ := Option.isSome_iff_exists.mp hi
    cases e2e <;> (rw [fetchLicenseFromServerInternal]; simp [ho, hv, catchLicense])

/-- Witness for C4's amended theorem at a concrete environment and the
invalid body `null`. -/
theorem fetch_schema_error_null_witness :
    fetchLicenseFromServerInternal ⟨some "license-key", false, true, none⟩
        (fun _ => .httpOk .jnull) 0 = ⟨.ok none, 1, 1, []⟩ :=
  fetch_schema_error_null ⟨some "license-key", false, true, none⟩ .jnull
    (fun _ => .httpOk .jnull) 0 "licenseDetails" rfl rfl (Or.inl rfl) rfl rfl

/-- Claim C5, counterexample: one `resolve()` call (`getEnterpriseLicense`)
with an empty cache performs 0 network calls, not the exactly 1 the claim
states for `N = 1`. -/
theorem resolve_zero_network_cex :
    countNetCalls (getEnterpriseLicense ⟨some "license-key", false, false, some "instance-id"⟩
        ⟨none, none⟩ 0).2 = 0 ∧ (0 : Nat) ≠ 1 := by
  exact ⟨rfl, by decide⟩

/-- Claim C5, amended: while one fetch invocation is outstanding, every
concurrent `fetchLicense` call for the configured key joins the same
in-flight promise without a second producer invocation (N concurrent calls
from an empty slot invoke the producer exactly once and all receive the
same promise); on completion the slot is cleared, and a call finding the
slot empty starts a fresh producer invocation. However, `resolve()`
(`getEnterpriseLicense`) performs 0 network calls for any cache state —
never the 1 per cache miss the claim states — because it never invokes
`fetchLicense`. -/
theorem fetchLicense_singleflight (env : Env) (s : SFState) (p N : Nat)
    (st : CacheState) (now : Nat)
    (hk : env.enterpriseLicenseKey.isSome = true)
    (hb : env.nextPhaseProductionBuild = false) :
    (s.slot = some p → fetchLicenseStep env s = (some p, s)) ∧
    (1 ≤ N → (iterateCalls env N ⟨none, 0, 0⟩).1.producerCalls = 1 ∧
      ∀ r ∈ (iterateCalls env N ⟨none, 0, 0⟩).2, r = some 0) ∧
    ((settleFetchLicense s).slot = none) ∧
    (s.slot = none → (fetchLicenseStep env s).2.producerCalls = s.producerCalls + 1) ∧
    countNetCalls (getEnterpriseLicense env st now).2 = 0 := by
  obtain ⟨k, b, e2e, inst⟩ := env
  obtain ⟨k', rfl⟩ := Option.isSome_iff_exists.mp hk
  simp at hb
  subst hb
  refine ⟨?_, ?_, rfl, ?_, rfl⟩
  · intro hs
    simp [fetchLicenseStep, hs]
  · intro hN
    obtain ⟨m, rfl⟩ := Nat.exists_eq_add_of_le hN
    have hstep : fetchLicenseStep ⟨some k', false, e2e, inst⟩ ⟨none, 0, 0⟩ =
        (some 0, ⟨some 0, 1, 1⟩) := by
      simp [fetchLicenseStep]
    have hjoin := iterateCalls_joined ⟨some k', false, e2e, inst⟩ 0 rfl rfl m
      ⟨some 0, 1, 1⟩ rfl
    rw [Nat.add_comm 1 m]
    constructor
    · simp [iterateCalls, hstep, hjoin]
    · intro r hr
      simp [iterateCalls, hstep, hjoin] at hr
      rcases hr with hr | hr
      · exact hr
      · exact hr.2
  · intro hs
    simp [fetchLicenseStep, hs]

/-- Witness for C5's amended theorem at a concrete environment, slot state
and `N = 3`. -/
theorem fetchLicense_singleflight_witness :
    ((⟨some 7, 1, 8⟩ : SFState).slot = some 7 →
      fetchLicenseStep ⟨some "license-key", false, false, some "instance-id"⟩ ⟨some 7, 1, 8⟩ =
        (some 7, ⟨some 7, 1, 8⟩)) ∧
    (1 ≤ 3 → (iterateCalls ⟨some "license-key", false, false, some "instance-id"⟩ 3
        ⟨none, 0, 0⟩).1.producerCalls = 1 ∧
      ∀ r ∈ (iterateCalls ⟨some "license-key", false, false, some "instance-id"⟩ 3
        ⟨none, 0, 0⟩).2, r = some 0) ∧
    ((settleFetchLicense ⟨some 7, 1, 8⟩).slot = none) ∧
    ((⟨some 7, 1, 8⟩ : SFState).slot = none →
      (fetchLicenseStep ⟨some "license-key", false, false, some "instance-id"⟩
        ⟨some 7, 1, 8⟩).2.producerCalls = 2) ∧
    countNetCalls (getEnterpriseLicense ⟨some "license-key", false, false, some "instance-id"⟩
        ⟨none, none⟩ 0).2 = 0 :=
  fetchLicense_singleflight ⟨some "license-key", false, false, some "instance-id"⟩
    ⟨some 7, 1, 8⟩ 7 3 ⟨none, none⟩ 0 rfl rfl

/-- Claim C6: when every attempt receives HTTP 503, the fetch operation
makes 4 attempts in total (3 retries), sleeps 1000 ms, 2000 ms and 4000 ms
before the retries (`RETRY_DELAY_MS * 2 ^ attempt`), and delivers `null`
without throwing. -/
theorem fetch_retry_503 (env : Env)
    (hk : env.enterpriseLicenseKey.isSome = true)
    (hb : env.nextPhaseProductionBuild = false)
    (hi : env.e2eTesting = true ∨ env.instanceId.isSome = true) :
    fetchLicenseFromServerInternal env (fun _ => .httpErr 503) 0 =
      ⟨.ok none, 4, 4, [1000, 2000, 4000]⟩ ∧
    MAX_RETRIES = 3 := by
  refine ⟨?_, rfl⟩
  obtain ⟨k, b, e2e, inst⟩ := env
  obtain ⟨k', rfl⟩ := Option.isSome_iff_exists.mp hk
  simp at hb
  subst hb
  rcases hi with he | hi
  · simp at he
    subst he
    simp [fetchLicenseFromServerInternal, catchLicense, MAX_RETRIES, RETRY_DELAY_MS]
  · obtain ⟨i, rfl⟩ := Option.isSome_iff_exists.mp hi
    cases e2e <;>
      simp [fetchLicenseFromServerInternal, catchLicense, MAX_RETRIES, RETRY_DELAY_MS]

/-- Witness for C6 at a concrete environment. -/
theorem fetch_retry_503_witness :
    fetchLicenseFromServerInternal ⟨some "license-key", false, false, some "instance-id"⟩
        (fun _ => .httpErr 503) 0 = ⟨.ok none, 4, 4, [1000, 2000, 4000]⟩ ∧
    MAX_RETRIES = 3 :=
  fetch_retry_503 ⟨some "license-key", false, false, some "instance-id"⟩
    rfl rfl (Or.inr rfl)

/-- Claim C7: for every HTTP status outside `{429, 502, 503, 504}`, the
fetch operation performs exactly one attempt, no retry and no backoff
sleep, and delivers `null`. -/
theorem fetch_no_retry_terminal (env : Env) (s : Nat)
    (hk : env.enterpriseLicenseKey.isSome = true)
    (hb : env.nextPhaseProductionBuild = false)
    (hi : env.e2eTesting = true ∨ env.instanceId.isSome = true)
    (hs : s ∉ [429, 502, 503, 504]) :
    fetchLicenseFromServerInternal env (fun _ => .httpErr s) 0 =
      ⟨.ok none, 1, 1, []⟩ := by
  obtain ⟨k, b, e2e, inst⟩ := env
  obtain ⟨k', rfl⟩ := Option.isSome_iff_exists.mp hk
  simp at hb
  subst hb
  rcases hi with he | hi
  · simp at he
    subst he
    simp [fetchLicenseFromServerInternal, catchLicense, hs]
  · obtain ⟨i, rfl⟩ := Option.isSome_iff_exists.mp hi
    cases e2e <;> simp [fetchLicenseFromServerInternal, catchLicense, hs]

/-- Witness for C7 at status 400. -/
theorem fetch_no_retry_terminal_witness :
    fetchLicenseFromServerInternal ⟨some "license-key", false, false, some "instance-id"⟩
        (fun _ => .httpErr 400) 0 = ⟨.ok none, 1, 1, []⟩ :=
  fetch_no_retry_terminal ⟨some "license-key", false, false, some "instance-id"⟩ 400
    rfl rfl (Or.inr rfl) (by decide)

/-- Claim C8: with no configured license key, or during the
build/provisioning phase, both the internal fetch attempt and
`fetchLicense` return `null` immediately: no usage-context gathering, no
network attempt, no backoff, and the single-flight slot and producer are
untouched. -/
theorem fetch_short_circuit (env : Env) (oracle : Nat → AttemptOutcome)
    (rc : Nat) (s : SFState)
    (h : env.enterpriseLicenseKey = none ∨ env.nextPhaseProductionBuild = true) :
    fetchLicenseFromServerInternal env oracle rc = ⟨.ok none, 0, 0, []⟩ ∧
    fetchLicenseStep env s = (none, s) := by
  obtain ⟨k, b, e2e, inst⟩ := env
  rcases h with h | h
  · simp at h
    subst h
    rw [fetchLicenseFromServerInternal]
    exact ⟨rfl, rfl⟩
  · simp at h
    subst h
    rw [fetchLicenseFromServerInternal]
    constructor
    · simp
    · simp [fetchLicenseStep]

/-- Witness for C8 at a keyless environment. -/
theorem fetch_short_circuit_witness :
    fetchLicenseFromServerInternal ⟨none, false, false, some "instance-id"⟩
        (fun _ => .httpErr 503) 0 = ⟨.ok none, 0, 0, []⟩ ∧
    fetchLicenseStep ⟨none, false, false, some "instance-id"⟩ ⟨none, 0, 0⟩ =
      (none, ⟨none, 0, 0⟩) :=
  fetch_short_circuit ⟨none, false, false, some "instance-id"⟩
    (fun _ => .httpErr 503) 0 ⟨none, 0, 0⟩ (Or.inl rfl)

/-- Claim C9: the fetch operation never throws — for every environment,
response oracle and starting retry count the delivered value is `.ok`
(so the catch branch rethrowing a `LicenseApiError` never fires, since a
`LicenseApiError` is constructed and logged but never thrown) — and when
every attempt is an ordinary operational failure (timeout or other network
exception, non-2xx status) it delivers `null`. -/
theorem fetch_never_throws :
    (∀ (env : Env) (oracle : Nat → AttemptOutcome) (rc : Nat),
      ∃ o, (fetchLicenseFromServerInternal env oracle rc).result = .ok o) ∧
    (∀ (env : Env) (oracle : Nat → AttemptOutcome) (rc : Nat),
      (∀ i, isFailureOutcome (oracle i) = true) →
      (fetchLicenseFromServerInternal env oracle rc).result = .ok none) := by
  constructor
  · intro env oracle rc
    exact fetch_result_ok_aux env oracle MAX_RETRIES rc (by omega)
  · intro env oracle rc hfail
    exact fetch_failure_null_aux env oracle hfail MAX_RETRIES rc (by omega)

/-- Witness for C9: a run where every attempt throws a network-level
exception delivers `null` without throwing. -/
theorem fetch_never_throws_witness :
    (fetchLicenseFromServerInternal ⟨some "license-key", false, false, some "instance-id"⟩
        (fun _ => .netExn) 0).result = .ok none :=
  fetch_never_throws.2 ⟨some "license-key", false, false, some "instance-id"⟩
    (fun _ => .netExn) 0 (fun _ => rfl)

/-- Claim C10: validation is idempotent on its own output — any outcome the
Validator produces, when serialized and validated again, is returned
unchanged. -/
theorem validate_roundtrip_idempotent (raw : JValue) (d : LicenseDetails)
    (_h : validateLicenseDetails raw = .ok d) :
    validateLicenseDetails (encodeLicenseDetails d) = .ok d :=
  licenseDetails_roundtrip d

/-- Witness for C10 at a concrete validated outcome. -/
theorem validate_roundtrip_idempotent_witness :
    validateLicenseDetails
        (encodeLicenseDetails ⟨.expired, allEnabledFeatures⟩) =
      .ok ⟨.expired, allEnabledFeatures⟩ :=
  validate_roundtrip_idempotent
    (encodeLicenseDetails ⟨.expired, allEnabledFeatures⟩)
    ⟨.expired, allEnabledFeatures⟩ (licenseDetails_roundtrip _)
